import Mathlib

/-!
# Verification of the Presupuestos catalog/quote engine

Shallow embedding of the core pure logic of `backend/server.py`:
the free-text request parser (`parse_client_request`), the product
scoring engine (`calculate_product_score`), the price-cell parser
(`extract_price`) and base-price selection of `upload_catalog`, the
row-isolation loop of catalog ingestion, and the tier partitioning and
embroidery marking-cost model of `generate_smart_quote`.

Python floats are modelled as rationals, fallible Python code as
`Except String`, missing dictionary keys / NaN cells as `Option`.
-/

namespace Presupuestos

/-! ## String utilities -/

/-- Contiguous-substring test, modelling the Python `in` operator on
strings (`syn in description_lower`). -/
def isSubstr (needle hay : String) : Bool :=
  (List.range (hay.length + 1)).any (fun i => needle.toList.isPrefixOf (hay.toList.drop i))

/-- Whitespace class used by Python `str.strip` and `\s` (the inputs here
only ever use the four ASCII whitespace characters). -/
def isWsCh (c : Char) : Bool :=
  c == ' ' || c == '\t' || c == '\n' || c == '\r'

def isDigitCh (c : Char) : Bool := c.isDigit

/-- Python `str.lower`, character by character.  All uppercase letters in
the texts and synonym tables at play are ASCII, where `Char.toLower`
agrees with Python. -/
def pyLower (s : String) : String :=
  ⟨s.toList.map Char.toLower⟩

/-- Numeric value of a digit run. -/
def digitsVal (cs : List Char) : Nat :=
  cs.foldl (fun a c => a * 10 + (c.toNat - 48)) 0

/-- Python `str.strip`. -/
def pyStrip (s : String) : String :=
  ⟨((s.toList.dropWhile isWsCh).reverse.dropWhile isWsCh).reverse⟩

/-- Remove every occurrence of the given characters
(Python `str.replace(c, '')` chained over `cs`). -/
def removeChars (cs : List Char) (s : String) : String :=
  ⟨s.toList.filter (fun c => !(cs.contains c))⟩

/-! ## Mini pattern matcher

The dimension/budget detection in `parse_client_request` uses a fixed
list of regular expressions of a very simple shape: digit groups,
literal fragments, and `\s*` gaps.  Each pattern is modelled as a token
list; for these patterns maximal-munch matching coincides with the
regex semantics, and trying every start position left to right
reproduces `re.search`'s leftmost-match rule. -/

inductive PatTok where
  | digits : PatTok
  | lit : String → PatTok
  | ws : PatTok

/-- Match a token list at the head of `cs`, returning the captured
digit-group values. -/
def matchToks : List PatTok → List Char → Option (List Nat)
  | [], _ => some []
  | PatTok.digits :: ts, cs =>
      let ds := cs.takeWhile isDigitCh
      if ds.isEmpty then none
      else (matchToks ts (cs.drop ds.length)).map (fun ns => digitsVal ds :: ns)
  | PatTok.ws :: ts, cs => matchToks ts (cs.dropWhile isWsCh)
  | PatTok.lit s :: ts, cs =>
      if s.toList.isPrefixOf cs then matchToks ts (cs.drop s.length) else none

/-- `re.search`: first start position (left to right) where the pattern
matches. -/
def searchPat (p : List PatTok) : List Char → Option (List Nat)
  | [] => matchToks p []
  | c :: cs =>
      match matchToks p (c :: cs) with
      | some r => some r
      | none => searchPat p cs

/-! ## ParsedRequest and parse_client_request -/

structure ParsedRequest where
  categoria : String
  cantidad : Int
  perfil : Option String := none
  tecnica : Option String := none
  area_cm2 : Option ℚ := none
  cobertura : Option String := none
  dimensiones : Option String := none
  posicion : Option String := none
  presupuesto_maximo : Option ℚ := none
deriving Repr, DecidableEq

def categoria_synonyms : List (String × List String) :=
  [("gorra", ["gorra", "gorras", "cap", "caps", "trucker", "snapback", "6 paneles", "baseball", "visera"]),
   ("camiseta", ["camiseta", "camisetas", "t-shirt", "tshirt", "playera", "remera"]),
   ("polo", ["polo", "polos", "piqué", "pique"]),
   ("sudadera", ["sudadera", "sudaderas", "hoodie", "hoodies", "capucha", "jersey"]),
   ("taza", ["taza", "tazas", "mug", "mugs", "jarron"]),
   ("bolsa", ["bolsa", "bolsas", "bag", "bags", "tote", "shopper"]),
   ("chaleco", ["chaleco", "chalecos", "vest"]),
   ("delantal", ["delantal", "delantales", "mandil"])]

def perfil_synonyms : List (String × List String) :=
  [("bajo", ["bajo", "básico", "barato", "económico", "standard"]),
   ("medio", ["medio", "intermedio", "equilibrado", "normal"]),
   ("alto", ["alto", "premium", "calidad", "superior", "top"])]

def tecnica_synonyms : List (String × List String) :=
  [("bordado", ["bordado", "bordados", "embroidery", "bordar"]),
   ("serigrafia", ["serigrafía", "serigrafia", "screen", "silk", "impresión"]),
   ("transfer", ["transfer", "vinilo", "termoadhesivo"]),
   ("sublimacion", ["sublimación", "sublimacion", "subli"]),
   ("dtf", ["dtf", "direct to film"]),
   ("laser", ["láser", "laser", "grabado"])]

def cobertura_synonyms : List (String × List String) :=
  [("lleno", ["lleno", "relleno", "full", "completo", "sólido"]),
   ("hueco", ["hueco", "outline", "contorno", "vacío", "solo borde"])]

def posicion_synonyms : List (String × List String) :=
  [("pecho", ["pecho", "frontal", "delantero", "front"]),
   ("espalda", ["espalda", "espaldar", "trasero", "back"]),
   ("manga", ["manga", "brazo", "sleeve"]),
   ("lateral", ["lateral", "lado", "side"])]

/-- First dictionary key whose synonym list has a substring hit in the
lowered description (dictionary iteration order = priority order). -/
def detectKey (dict : List (String × List String)) (d : String) : Option String :=
  (dict.find? (fun kv => kv.2.any (fun syn => isSubstr syn d))).map Prod.fst

def dimension_patterns : List (List PatTok) :=
  [[PatTok.digits, PatTok.lit "x", PatTok.digits, PatTok.ws, PatTok.lit "cm"],
   [PatTok.digits, PatTok.lit "×", PatTok.digits, PatTok.ws, PatTok.lit "cm"],
   [PatTok.digits, PatTok.ws, PatTok.lit "x", PatTok.ws, PatTok.digits],
   [PatTok.digits, PatTok.ws, PatTok.lit "×", PatTok.ws, PatTok.digits],
   [PatTok.digits, PatTok.ws, PatTok.lit "por", PatTok.ws, PatTok.digits],
   [PatTok.lit "área", PatTok.ws, PatTok.lit "de", PatTok.ws, PatTok.digits],
   [PatTok.lit "superficie", PatTok.ws, PatTok.digits]]

/-- Dimension/area detection: first pattern with a match wins; a
width-height pair sets area and the raw dimension string, a bare area
number sets only the area. -/
def detectDims (d : String) : Option ℚ × Option String :=
  match dimension_patterns.findSome? (fun p => searchPat p d.toList) with
  | some [w, h] => (some ((w * h : Nat) : ℚ), some (toString w ++ "x" ++ toString h ++ "cm"))
  | some [a] => (some (a : ℚ), none)
  | _ => (none, none)

def budget_patterns : List (List PatTok) :=
  [[PatTok.lit "hasta", PatTok.ws, PatTok.digits, PatTok.ws, PatTok.lit "€"],
   [PatTok.lit "máximo", PatTok.ws, PatTok.digits, PatTok.ws, PatTok.lit "euros"],
   [PatTok.lit "budget", PatTok.ws, PatTok.digits],
   [PatTok.lit "presupuesto", PatTok.ws, PatTok.digits]]

def detectBudget (d : String) : Option ℚ :=
  match budget_patterns.findSome? (fun p => searchPat p d.toList) with
  | some (n :: _) => some ((n : ℚ))
  | _ => none

/-- `parse_client_request(description, quantity)`: lowercase the text,
run the synonym dictionaries and the dimension/budget patterns. -/
def parse_client_request (description : String) (quantity : Int) : ParsedRequest :=
  let d := pyLower description
  let dims := detectDims d
  { categoria := (detectKey categoria_synonyms d).getD "general"
    cantidad := quantity
    perfil := detectKey perfil_synonyms d
    tecnica := detectKey tecnica_synonyms d
    area_cm2 := dims.1
    cobertura := detectKey cobertura_synonyms d
    dimensiones := dims.2
    posicion := detectKey posicion_synonyms d
    presupuesto_maximo := detectBudget d }

/-! ## Python numeric literal parsing

`extract_price` ends in Python's `float(...)`, the delivery-time factor
of the scoring engine in `int(...)`.  Both are modelled on their
decimal-literal subset (optional surrounding whitespace, optional sign,
digits; `float` additionally allows a decimal point and an exponent).
The special forms `inf`/`nan` and digit-group underscores are not
modelled; none of the data formats at play produce them. -/

/-- `int(s)` for decimal strings. -/
def pyInt (s : String) : Option Int :=
  let cs := ((s.toList.dropWhile isWsCh).reverse.dropWhile isWsCh).reverse
  let p : Int × List Char :=
    match cs with
    | '+' :: r => (1, r)
    | '-' :: r => (-1, r)
    | r => (1, r)
  if p.2 ≠ [] ∧ p.2.all isDigitCh then some (p.1 * Int.ofNat (digitsVal p.2)) else none

/-- Mantissa of a float literal: digits with an optional point, returned
as (numerator, number of fractional digits) plus the unconsumed rest. -/
def floatMantissa (cs : List Char) : Option ((Int × Nat) × List Char) :=
  let ip := cs.takeWhile isDigitCh
  let rest := cs.drop ip.length
  match rest with
  | '.' :: rest2 =>
      let fp := rest2.takeWhile isDigitCh
      if ip.isEmpty ∧ fp.isEmpty then none
      else some ((Int.ofNat (digitsVal ip * 10 ^ fp.length + digitsVal fp), fp.length),
        rest2.drop fp.length)
  | _ => if ip.isEmpty then none else some ((Int.ofNat (digitsVal ip), 0), rest)

/-- Optional exponent suffix of a float literal; fails on trailing junk. -/
def floatExponent : List Char → Option Int
  | [] => some 0
  | c :: rest =>
      if c == 'e' || c == 'E' then
        let p : Int × List Char :=
          match rest with
          | '+' :: r => (1, r)
          | '-' :: r => (-1, r)
          | r => (1, r)
        let ds := p.2.takeWhile isDigitCh
        if ds.isEmpty then none
        else if (p.2.drop ds.length).isEmpty then some (p.1 * Int.ofNat (digitsVal ds))
        else none
      else none

/-- `float(s)` split into a signed mantissa numerator `n` and a ten
exponent `e`, so that the value is `n * 10 ^ e`. -/
def pyFloatParts (s : String) : Option (Int × Int) :=
  let cs := ((s.toList.dropWhile isWsCh).reverse.dropWhile isWsCh).reverse
  let p : Int × List Char :=
    match cs with
    | '+' :: r => (1, r)
    | '-' :: r => (-1, r)
    | r => (1, r)
  match floatMantissa p.2 with
  | none => none
  | some ((n, k), rest) =>
      match floatExponent rest with
      | none => none
      | some e => some (p.1 * n, e - (k : Int))

/-- `float(s)` as a rational. -/
def pyFloat (s : String) : Option ℚ :=
  (pyFloatParts s).map (fun p => (p.1 : ℚ) * (10 : ℚ) ^ p.2)

/-! ## extract_price (upload_catalog, rows 394-413) -/

def currency_chars : List Char := ['€', '$', '£']

/-- Decimal-separator normalization of `extract_price`: with both `.`
and `,` present, `.` is a thousands separator and `,` the decimal point;
else a single `,` is the decimal point. -/
def normalizeSeps (s : String) : String :=
  let cs := s.toList
  if cs.contains ',' ∧ cs.contains '.' then
    ⟨(cs.filter (fun c => c != '.')).map (fun c => if c = ',' then '.' else c)⟩
  else if cs.contains ',' ∧ cs.count ',' = 1 then
    ⟨cs.map (fun c => if c = ',' then '.' else c)⟩
  else s

/-- The inner helper `extract_price(col, row)` of `upload_catalog`.
`none` models a missing column or a NaN cell (the guard
`if col and pd.notna(row[col])`); a failed `float(...)` is caught and
becomes `0.0`. -/
def extract_price (cell : Option String) : ℚ :=
  match cell with
  | none => 0
  | some v =>
      match pyFloat (normalizeSeps (pyStrip (removeChars [' '] (removeChars currency_chars v)))) with
      | some q => q
      | none => 0

/-! ## Base-price selection of the ingestion row loop (rows 392-441)

Only the pricing cells of a row are relevant to the `base_price`
invariant; `none` stands for an absent column or a NaN cell. -/

structure PriceRow where
  price_500_minus : Option String := none
  price_500_plus : Option String := none
  price_2000_plus : Option String := none
  price_5000_plus : Option String := none
  price_base : Option String := none
  detected : List (Option String) := []
deriving Repr

/-- The loop over `detected_price_cols`: each present cell reassigns
`base_price`; the loop stops at the first positive value but keeps the
last assignment when none is positive. -/
def detectedScan : List (Option String) → ℚ → ℚ
  | [], bp => bp
  | none :: rest, bp => detectedScan rest bp
  | some cell :: rest, _ =>
      let np := extract_price (some cell)
      if 0 < np then np else detectedScan rest np

/-- `base_price` of one ingested row: first positive volume tier in
declared order, else the explicit base-price column, else the detected
price-column scan, else `0.0`. -/
def computeBasePrice (r : PriceRow) : ℚ :=
  let vp := [extract_price r.price_500_minus, extract_price r.price_500_plus,
    extract_price r.price_2000_plus, extract_price r.price_5000_plus]
  let prices := vp.filter (fun p => 0 < p)
  let bp1 := prices.headD 0
  let bp2 := if bp1 = 0 then extract_price r.price_base else bp1
  if bp2 = 0 then detectedScan r.detected bp2 else bp2

/-! ## Row isolation of the ingestion loop (rows 354-519)

A row is processed to either a product record or a raised exception;
the loop records failures as `"Row n: reason"` (with `n` the DataFrame
row index plus 2) and keeps going, and the batch insert happens
afterwards whenever at least one product was parsed. -/

def rowErrorMsg (idx : Nat) (reason : String) : String :=
  "Row " ++ toString (idx + 2) ++ ": " ++ reason

/-- The catch-and-continue loop: successes and error strings collected
in row order.  Each row carries its DataFrame index (indices need not be
contiguous: blank-row removal does not reindex). -/
def processRows {α : Type} : List (Nat × Except String α) → List α × List String
  | [] => ([], [])
  | ir :: rest =>
      let acc := processRows rest
      match ir.2 with
      | Except.ok p => (p :: acc.1, acc.2)
      | Except.error e => (acc.1, rowErrorMsg ir.1 e :: acc.2)

/-- `if products: await db.products.insert_many(products)`. -/
def batchInsertOccurs {α : Type} (rows : List (Nat × Except String α)) : Bool :=
  !(processRows rows).1.isEmpty

/-! ## Scoring engine (calculate_product_score, rows 1244-1306)

A product is its base price plus the characteristics the engine reads;
`none` models a missing key (every `.get` default in the source maps a
missing key to the same behaviour as an empty value, so missing and
empty dictionaries collapse). -/

structure CharsS where
  perfil_calidad : Option String := none
  tecnica_grabacion : Option String := none
  print_codes : Option String := none
  stock_disponible : Option String := none
  plazo_entrega_dias : Option String := none
  sostenibilidad : Option String := none
deriving Repr, DecidableEq

structure ProductS where
  base_price : ℚ
  chars : CharsS
deriving Repr, DecidableEq

def w_precio : ℚ := 3/10
def w_perfil : ℚ := 1/4
def w_compatibilidad : ℚ := 1/5
def w_stock : ℚ := 1/10
def w_plazo : ℚ := 1/10
def w_sostenibilidad : ℚ := 1/20

/-- Python truthiness of an optional string. -/
def truthyS (o : Option String) : Bool := o.getD "" != ""

/-- Python `list.index`, which raises ValueError on a missing element. -/
def pyIndex (xs : List String) (x : String) : Except String Nat :=
  match xs.findIdx? (fun y => y == x) with
  | some i => Except.ok i
  | none => Except.error ("ValueError: " ++ x ++ " is not in list")

def tier_order : List String := ["bajo", "medio", "alto"]

/-- Quality-tier factor.  `productPerfil` is the already-lowered
`perfil_calidad` characteristic; the adjacency test indexes both tiers
in `tier_order` and raises when a tier is not in the list. -/
def perfil_score (parsedPerfil : Option String) (productPerfil : String) : Except String ℚ :=
  match parsedPerfil with
  | none => Except.ok 0
  | some pp =>
      if pp ≠ "" ∧ productPerfil ≠ "" then
        if pyLower pp = productPerfil then Except.ok (w_perfil * 1)
        else
          match pyIndex tier_order pp with
          | Except.error e => Except.error e
          | Except.ok i =>
              match pyIndex tier_order productPerfil with
              | Except.error e => Except.error e
              | Except.ok j =>
                  if ((i : Int) - (j : Int)).natAbs = 1 then Except.ok (w_perfil * (1/2))
                  else Except.ok 0
      else Except.ok 0

/-- Price factor: products priced `> 0` get `w_precio * max(0, 1 - p/50)`,
a product priced `0` skips the factor entirely. -/
def price_score (bp : ℚ) : ℚ :=
  if 0 < bp then w_precio * max 0 (1 - bp / 50) else 0

/-- Technique-compatibility factor over
`characteristics.impresion.tecnica_grabacion`, falling back to
`characteristics.print_codes`. -/
def tecnica_score (parsedTecnica : Option String) (chars : CharsS) : ℚ :=
  let pc0 := chars.tecnica_grabacion.getD ""
  let pc := if pc0 = "" then chars.print_codes.getD "" else pc0
  match parsedTecnica with
  | none => 0
  | some t =>
      if t ≠ "" ∧ pc ≠ "" then
        if isSubstr (pyLower t) (pyLower pc) then w_compatibilidad * 1
        else if isSubstr "bordado" t ∧ isSubstr "bordado" (pyLower pc) then w_compatibilidad * 1
        else 0
      else 0

def stock_score (chars : CharsS) : ℚ :=
  let st := pyLower (chars.stock_disponible.getD "")
  if isSubstr "si" st then w_stock * 1
  else if isSubstr "bajo" st then w_stock * (1/2)
  else 0

/-- Delivery-time factor: missing key defaults to 30 days, an empty
value is falsy and also becomes 30, an unparseable value is swallowed by
the bare `except: pass`. -/
def plazo_score (chars : CharsS) : ℚ :=
  match chars.plazo_entrega_dias with
  | none => w_plazo * max 0 (1 - (30 : ℚ) / 30)
  | some s =>
      if s = "" then w_plazo * max 0 (1 - (30 : ℚ) / 30)
      else
        match pyInt s with
        | some n => w_plazo * max 0 (1 - (n : ℚ) / 30)
        | none => 0

def sost_score (chars : CharsS) : ℚ :=
  if chars.sostenibilidad.getD "" ≠ "" then w_sostenibilidad * 1 else 0

/-- `calculate_product_score(product, parsed)`.  The quality-tier factor
is the one fallible step; all later factors are only reached when it
does not raise. -/
def calculate_product_score (product : ProductS) (parsed : ParsedRequest) : Except String ℚ :=
  match perfil_score parsed.perfil (pyLower (product.chars.perfil_calidad.getD "")) with
  | Except.error e => Except.error e
  | Except.ok ps =>
      Except.ok (price_score product.base_price + ps + tecnica_score parsed.tecnica product.chars
        + stock_score product.chars + plazo_score product.chars + sost_score product.chars)

/-! ## Smart-quote tier partitioning (generate_smart_quote, rows 1430-1451) -/

def tier_size (n : Nat) : Nat := max 1 (n / 3)

def basic_products {α : Type} (top : List α) : List α :=
  top.take (tier_size top.length)

/-- `top[tier_size:tier_size*2]` when the upper bound is in range, else
`top[tier_size:]`; an empty result falls back to the basic tier. -/
def medium_products {α : Type} (top : List α) : List α :=
  let ts := tier_size top.length
  let m := if ts * 2 ≤ top.length then (top.drop ts).take ts else top.drop ts
  if m.isEmpty then basic_products top else m

/-- `top[-tier_size:]` when at least `2*tier_size` candidates exist,
else `top[:3]`. -/
def premium_products {α : Type} (top : List α) : List α :=
  let ts := tier_size top.length
  if ts * 2 ≤ top.length then top.drop (top.length - ts) else top.take 3

/-! ## Smart-quote marking cost (generate_smart_quote, rows 1380-1424) -/

structure MarkingTech where
  name : String
  cost_per_unit : ℚ
deriving Repr

/-- The Mongo filter on stored techniques: case-insensitive regex
`bordado` on the name, i.e. a case-insensitive substring match. -/
def matchesBordado (t : MarkingTech) : Bool :=
  isSubstr "bordado" (pyLower t.name)

def cobertura_multiplier (c : Option String) : ℚ :=
  if c = some "lleno" then 12/10
  else if c = some "hueco" then 8/10
  else 1

def area_multiplier (a : ℚ) : ℚ :=
  if a ≤ 15 then 13/10
  else if a ≤ 35 then 11/10
  else if 50 ≤ a then 9/10
  else 1

/-- Non-embroidery branch: sum of `cost_per_unit` over stored techniques
whose name was explicitly requested. -/
def other_techniques_cost (techniques : List MarkingTech) (requested : List String) : ℚ :=
  ((techniques.filter (fun t => requested.contains t.name)).map (fun t => t.cost_per_unit)).sum

/-- The marking-cost block of `generate_smart_quote`.  When the parsed
technique is bordado and a nonzero area was detected, the first stored
technique matching `bordado` prices the embroidery; with no match the
statement `logger.info(f"Bordado calculado: ... x \x7bbordado_base_price\x7d ...")`
after the branch reads names that were never bound and the endpoint dies
with a NameError, modelled as `Except.error`. -/
def smart_marking_cost (techniques : List MarkingTech) (requested : List String)
    (parsed : ParsedRequest) : Except String ℚ :=
  let a := parsed.area_cm2.getD 0
  if parsed.tecnica = some "bordado" ∧ a ≠ 0 then
    match techniques.filter matchesBordado with
    | t :: _ =>
        Except.ok (t.cost_per_unit * a * cobertura_multiplier parsed.cobertura * area_multiplier a)
    | [] => Except.error "NameError: name bordado_base_price is not defined"
  else if truthyS parsed.tecnica ∧ ¬ requested.isEmpty then
    Except.ok (other_techniques_cost techniques requested)
  else Except.ok 0

/-! # Theorems -/

/-! ## C1: parsing the reference request -/

def C1_text : String := "Necesito 50 gorras bordadas en el pecho, área 7x7cm, lleno"

/-- C1 is refuted at its own input: none of the `bordado` synonyms
(`bordado`, `bordados`, `embroidery`, `bordar`) is a substring of the
feminine participle `bordadas`, so the parser leaves the technique
unset instead of returning `bordado`. -/
theorem C1_counterexample : ¬ ((parse_client_request C1_text 50).tecnica = some "bordado") := by
  decide

/-- C1 (amended): on `"Necesito 50 gorras bordadas en el pecho, área
7x7cm, lleno"` with quantity 50 the parser returns categoria `gorra`,
area 49, dimensiones `7x7cm`, cobertura `lleno`, posicion `pecho`,
cantidad 50 — and no technique. -/
theorem C1_parse_reference_request :
    parse_client_request C1_text 50 =
      { categoria := "gorra", cantidad := 50, perfil := none, tecnica := none,
        area_cm2 := some 49, cobertura := some "lleno", dimensiones := some "7x7cm",
        posicion := some "pecho", presupuesto_maximo := none } := by
  decide

/-! ## C5: extract_price -/

/-- C5: `extract_price` strips currency symbols and whitespace, applies
the European separator convention (both `.` and `,` present means `.`
is a thousands separator; a lone `,` is the decimal point), parses the
reference examples to the expected values, and yields `0.0` on any
string whose normalized form is not a float literal and on a missing
cell — it never raises. -/
theorem C5_extract_price_spec :
    extract_price (some "12,50€") = 25/2 ∧
    extract_price (some "1.234,56") = 30864/25 ∧
    extract_price (some "$3.20") = 16/5 ∧
    extract_price (some "  9.99 ") = 999/100 ∧
    (∀ s : String,
      pyFloat (normalizeSeps (pyStrip (removeChars [' '] (removeChars currency_chars s)))) = none →
        extract_price (some s) = 0) ∧
    extract_price none = 0 := by
  have h1 : pyFloatParts (normalizeSeps (pyStrip (removeChars [' ']
      (removeChars currency_chars "12,50€")))) = some (1250, -2) := by decide
  have h2 : pyFloatParts (normalizeSeps (pyStrip (removeChars [' ']
      (removeChars currency_chars "1.234,56")))) = some (123456, -2) := by decide
  have h3 : pyFloatParts (normalizeSeps (pyStrip (removeChars [' ']
      (removeChars currency_chars "$3.20")))) = some (320, -2) := by decide
  have h4 : pyFloatParts (normalizeSeps (pyStrip (removeChars [' ']
      (removeChars currency_chars "  9.99 ")))) = some (999, -2) := by decide
  refine ⟨?_, ?_, ?_, ?_, ?_, rfl⟩
  · simp [extract_price, pyFloat, h1]; norm_num
  · simp [extract_price, pyFloat, h2]; norm_num
  · simp [extract_price, pyFloat, h3]; norm_num
  · simp [extract_price, pyFloat, h4]; norm_num
  · intro s hs
    simp [extract_price, hs]

/-- C5 witness: a garbage cell parses to `0.0`. -/
theorem C5_witness : extract_price (some "garbage") = 0 :=
  C5_extract_price_spec.2.2.2.2.1 "garbage" (by decide)

/-! ## C3: the base_price invariant -/

lemma extract_price_none : extract_price none = 0 := rfl

lemma extract_price_neg5 : extract_price (some "-5") = -5 := by
  have h : pyFloatParts (normalizeSeps (pyStrip (removeChars [' ']
      (removeChars currency_chars "-5")))) = some (-5, 0) := by decide
  simp [extract_price, pyFloat, h]

/-- C3 is refuted: a row whose explicit base-price column holds `-5`
produces a product with a negative `base_price` — the positivity filter
only guards the volume tiers, the base-column and detected-column
fallbacks assign `extract_price` results unchecked. -/
theorem C3_counterexample : computeBasePrice { price_base := some "-5" } < 0 := by
  norm_num [computeBasePrice, extract_price_none, extract_price_neg5, detectedScan]

lemma headD_filter_pos (l : List ℚ) : 0 ≤ (l.filter (fun p => 0 < p)).headD 0 := by
  cases h : l.filter (fun p => 0 < p) with
  | nil => simp
  | cons x xs =>
      have hx : x ∈ l.filter (fun p => 0 < p) := by rw [h]; exact List.mem_cons_self x xs
      have hp : 0 < x := by simpa using (List.mem_filter.mp hx).2
      simp [le_of_lt hp]

lemma detectedScan_nonneg (cells : List (Option String)) :
    ∀ bp : ℚ, (∀ c ∈ cells, 0 ≤ extract_price c) → 0 ≤ bp → 0 ≤ detectedScan cells bp := by
  induction cells with
  | nil =>
      intro bp _ hbp
      simpa [detectedScan] using hbp
  | cons c rest ih =>
      intro bp hc hbp
      cases c with
      | none =>
          simp only [detectedScan]
          exact ih bp (fun d hd => hc d (List.mem_cons_of_mem _ hd)) hbp
      | some cell =>
          simp only [detectedScan]
          have h0 : 0 ≤ extract_price (some cell) := hc _ (List.mem_cons_self _ _)
          split
          · exact h0
          · exact ih _ (fun d hd => hc d (List.mem_cons_of_mem _ hd)) h0

/-- C3 (amended): whenever every price cell of the row parses to a
non-negative value (which the counterexample shows is needed for the
base-column and detected-column fallbacks), the ingested `base_price`
is non-negative; unparseable cells still contribute `0.0` instead of
failing the row (`extract_price` is total). -/
theorem C3_base_price_nonneg (r : PriceRow)
    (hb : 0 ≤ extract_price r.price_base)
    (hd : ∀ c ∈ r.detected, 0 ≤ extract_price c) :
    0 ≤ computeBasePrice r := by
  have h1 : 0 ≤ ([extract_price r.price_500_minus, extract_price r.price_500_plus,
      extract_price r.price_2000_plus, extract_price r.price_5000_plus].filter
        (fun p => 0 < p)).headD 0 := headD_filter_pos _
  simp only [computeBasePrice]
  split
  next hzero =>
    split
    next hpb =>
      rw [hpb]
      exact detectedScan_nonneg r.detected 0 hd le_rfl
    next => exact hb
  next => exact h1

/-- C3 witness: a row with no price cells at all gets `base_price = 0`,
which is non-negative. -/
theorem C3_witness : 0 ≤ computeBasePrice {} :=
  C3_base_price_nonneg {} (by simp [extract_price_none]) (by simp)

/-! ## C6: row-level error isolation of catalog ingestion -/

/-- C6: the ingestion loop never aborts the batch for one bad row: the
products list is exactly the successful rows in order, every failing
row with DataFrame index `i` is recorded as `"Row (i+2): reason"` while
the remaining rows are still processed, and the batch insert fires
exactly when at least one product was parsed. -/
theorem C6_row_isolation {α : Type} (rows : List (Nat × Except String α)) :
    (processRows rows).1 = rows.filterMap (fun ir => ir.2.toOption) ∧
    (processRows rows).2 = rows.filterMap (fun ir =>
      match ir.2 with
      | Except.error e => some (rowErrorMsg ir.1 e)
      | Except.ok _ => none) ∧
    (batchInsertOccurs rows = true ↔ (processRows rows).1 ≠ []) := by
  refine ⟨?_, ?_, ?_⟩
  · induction rows with
    | nil => rfl
    | cons ir rest ih =>
        cases hr : ir.2 with
        | ok p => simp [processRows, hr, ih, Except.toOption]
        | error e => simp [processRows, hr, ih, Except.toOption]
  · induction rows with
    | nil => rfl
    | cons ir rest ih =>
        cases hr : ir.2 with
        | ok p => simp [processRows, hr, ih]
        | error e => simp [processRows, hr, ih]
  · cases h : (processRows rows).1 with
    | nil => simp [batchInsertOccurs, h]
    | cons p ps => simp [batchInsertOccurs, h]

/-! ## C7: smart-quote tier partitioning -/

/-- C7 is refuted at a single-candidate list: `tierSize = 1`, the
medium slice `top[1:2]` is empty, and the code then reuses the basic
tier (`medium_products = basic_products`), not the items at positions
`[1, 6)` (which would be the empty list — that fallback lives in dead
code after the endpoint's `return`). -/
theorem C7_counterexample :
    medium_products [(1 : ℚ)] = [1] ∧
    medium_products [(1 : ℚ)] ≠ List.take 5 (List.drop 1 [(1 : ℚ)]) :=
  ⟨by decide, by decide⟩

/-- C7 (amended): for any top-N list (N ≥ 1), `tierSize = max(1, N/3)`,
the basic tier is the first `tierSize` items, the medium tier is the
items at positions `[tierSize, 2*tierSize)` — falling back to the basic
tier (not to positions `[1,6)`) when that slice is empty — and the
premium tier is the last `tierSize` items, or the first 3 items when
`N < 2*tierSize`. -/
theorem C7_tier_partition (α : Type) (top : List α) (hN : 1 ≤ top.length) :
    tier_size top.length = max 1 (top.length / 3) ∧
    basic_products top = top.take (tier_size top.length) ∧
    ((top.drop (tier_size top.length)).take (tier_size top.length) = [] →
      medium_products top = basic_products top) ∧
    ((top.drop (tier_size top.length)).take (tier_size top.length) ≠ [] →
      medium_products top = (top.drop (tier_size top.length)).take (tier_size top.length)) ∧
    premium_products top =
      (if top.length < 2 * tier_size top.length
        then top.take 3
        else top.drop (top.length - tier_size top.length)) := by
  have hm_eq : (if tier_size top.length * 2 ≤ top.length
      then (top.drop (tier_size top.length)).take (tier_size top.length)
      else top.drop (tier_size top.length)) =
      (top.drop (tier_size top.length)).take (tier_size top.length) := by
    by_cases hc : tier_size top.length * 2 ≤ top.length
    · rw [if_pos hc]
    · have hlen : (top.drop (tier_size top.length)).length ≤ tier_size top.length := by
        rw [List.length_drop]
        omega
      rw [if_neg hc, List.take_of_length_le hlen]
  have hmed : medium_products top =
      (if ((top.drop (tier_size top.length)).take (tier_size top.length)).isEmpty = true
        then basic_products top
        else (top.drop (tier_size top.length)).take (tier_size top.length)) := by
    simp only [medium_products]
    rw [hm_eq]
  refine ⟨rfl, rfl, ?_, ?_, ?_⟩
  · intro hm
    rw [hmed, hm]
    simp
  · intro hm
    rw [hmed, if_neg (by simpa [List.isEmpty_iff] using hm)]
  · simp only [premium_products]
    by_cases hc : tier_size top.length * 2 ≤ top.length
    · rw [if_pos hc, if_neg (by omega)]
    · rw [if_neg hc, if_pos (by omega)]

/-- C7 witness: the partition at a concrete two-candidate list. -/
theorem C7_witness :
    tier_size (List.length [10, 20]) = max 1 (List.length [10, 20] / 3) ∧
    basic_products [10, 20] = List.take (tier_size (List.length [10, 20])) [10, 20] ∧
    ((List.drop (tier_size (List.length [10, 20])) [10, 20]).take
        (tier_size (List.length [10, 20])) = [] →
      medium_products [10, 20] = basic_products [10, 20]) ∧
    ((List.drop (tier_size (List.length [10, 20])) [10, 20]).take
        (tier_size (List.length [10, 20])) ≠ [] →
      medium_products [10, 20] =
        (List.drop (tier_size (List.length [10, 20])) [10, 20]).take
          (tier_size (List.length [10, 20]))) ∧
    premium_products [10, 20] =
      (if List.length [10, 20] < 2 * tier_size (List.length [10, 20])
        then List.take 3 [10, 20]
        else List.drop (List.length [10, 20] - tier_size (List.length [10, 20])) [10, 20]) :=
  C7_tier_partition Nat [10, 20] (by decide)

/-! ## C2, C4, C10: the scoring engine -/

/-- A request that matched no synonym at all: category falls back to
the `general` sentinel and every optional field stays unset. -/
def reqGeneral : ParsedRequest := { categoria := "general", cantidad := 1 }

/-- `calculate_product_score` with the product split into its fields. -/
lemma calculate_product_score_eq (bp : ℚ) (c : CharsS) (parsed : ParsedRequest) :
    calculate_product_score ⟨bp, c⟩ parsed =
      match perfil_score parsed.perfil (pyLower (c.perfil_calidad.getD "")) with
      | Except.error e => Except.error e
      | Except.ok ps =>
          Except.ok (price_score bp + ps + tecnica_score parsed.tecnica c
            + stock_score c + plazo_score c + sost_score c) := rfl

lemma plazo_score_empty : plazo_score {} = 0 := by
  rw [show plazo_score {} = w_plazo * max 0 (1 - (30:ℚ)/30) from rfl]
  norm_num

/-- On an empty-characteristics product and the sentinel request, the
whole score is the price factor. -/
lemma score_eval_general (bp : ℚ) :
    calculate_product_score ⟨bp, {}⟩ reqGeneral = Except.ok (price_score bp) := by
  have hperf : perfil_score reqGeneral.perfil
      (pyLower ((({} : CharsS)).perfil_calidad.getD "")) = Except.ok 0 := rfl
  have htec : tecnica_score reqGeneral.tecnica {} = 0 := rfl
  have hstock : stock_score {} = 0 := rfl
  have hsost : sost_score {} = 0 := rfl
  rw [calculate_product_score_eq, hperf, htec, hstock, hsost, plazo_score_empty]
  ring_nf

lemma score_eval_zero : calculate_product_score ⟨0, {}⟩ reqGeneral = Except.ok 0 := by
  rw [score_eval_general, price_score, if_neg (by norm_num)]

lemma score_eval_one : calculate_product_score ⟨1, {}⟩ reqGeneral = Except.ok (147/500) := by
  rw [score_eval_general, price_score, if_pos (by norm_num : (0:ℚ) < 1),
    max_eq_right (by norm_num)]
  norm_num [w_precio]

lemma score_eval_two : calculate_product_score ⟨2, {}⟩ reqGeneral = Except.ok (36/125) := by
  rw [score_eval_general, price_score, if_pos (by norm_num : (0:ℚ) < 2),
    max_eq_right (by norm_num)]
  norm_num [w_precio]

/-- C2 is refuted at prices 0 and 1: the guard `if precio_base > 0`
skips the price factor entirely for a zero-priced product, so the
cheaper (free) product scores 0 while the pricier one scores 147/500 —
the score is not non-increasing on price ≥ 0. -/
theorem C2_counterexample :
    calculate_product_score ⟨0, {}⟩ reqGeneral = Except.ok 0 ∧
    calculate_product_score ⟨1, {}⟩ reqGeneral = Except.ok (147/500) ∧
    ¬ ((147 : ℚ)/500 ≤ 0) :=
  ⟨score_eval_zero, score_eval_one, by norm_num⟩

/-- C2 (amended): for two products identical except for the price and
with strictly positive prices, the scoring engine is monotonically
non-increasing in price. -/
theorem C2_price_monotone (c : CharsS) (parsed : ParsedRequest) (p q s t : ℚ)
    (hp : 0 < p) (hpq : p ≤ q)
    (hs : calculate_product_score ⟨p, c⟩ parsed = Except.ok s)
    (ht : calculate_product_score ⟨q, c⟩ parsed = Except.ok t) :
    t ≤ s := by
  have hmono : price_score q ≤ price_score p := by
    rw [price_score, price_score, if_pos hp, if_pos (lt_of_lt_of_le hp hpq)]
    have hmax : max 0 (1 - q/50) ≤ max 0 (1 - p/50) :=
      max_le_max le_rfl (by linarith)
    exact mul_le_mul_of_nonneg_left hmax (by norm_num [w_precio])
  rw [calculate_product_score_eq] at hs ht
  cases hperf : perfil_score parsed.perfil (pyLower (c.perfil_calidad.getD "")) with
  | error e =>
      rw [hperf] at hs
      exact absurd hs (by simp)
  | ok ps =>
      rw [hperf] at hs ht
      simp only [Except.ok.injEq] at hs ht
      linarith

/-- C2 witness: prices 1 and 2 over an empty product. -/
theorem C2_witness : (36 : ℚ)/125 ≤ 147/500 :=
  C2_price_monotone {} reqGeneral 1 2 (147/500) (36/125) (by norm_num) (by norm_num)
    score_eval_one score_eval_two

/-- C4: the request asks for the low tier, the product's
`perfil_calidad` characteristic holds the out-of-vocabulary value
`premium`; the adjacency check `['bajo','medio','alto'].index(...)`
raises ValueError instead of contributing zero. -/
theorem C4_unknown_tier_raises :
    calculate_product_score ⟨5, { perfil_calidad := some "premium" }⟩
      { categoria := "general", cantidad := 10, perfil := some "bajo" } =
      Except.error "ValueError: premium is not in list" := rfl

lemma price_score_nonneg (bp : ℚ) : 0 ≤ price_score bp := by
  rw [price_score]
  split
  · exact mul_nonneg (by norm_num [w_precio]) (le_max_left 0 _)
  · exact le_rfl

lemma perfil_score_nonneg (pp : Option String) (pr : String) (v : ℚ)
    (h : perfil_score pp pr = Except.ok v) : 0 ≤ v := by
  cases pp with
  | none =>
      simp only [perfil_score, Except.ok.injEq] at h
      exact le_of_eq h
  | some x =>
      simp only [perfil_score] at h
      split at h
      · split at h
        · simp only [Except.ok.injEq] at h
          rw [← h]
          norm_num [w_perfil]
        · cases h1 : pyIndex tier_order x with
          | error e =>
              rw [h1] at h
              simp at h
          | ok i =>
              rw [h1] at h
              cases h2 : pyIndex tier_order pr with
              | error e =>
                  rw [h2] at h
                  simp at h
              | ok j =>
                  rw [h2] at h
                  simp only [] at h
                  split at h
                  · simp only [Except.ok.injEq] at h
                    rw [← h]
                    norm_num [w_perfil]
                  · simp only [Except.ok.injEq] at h
                    exact le_of_eq h
      · simp only [Except.ok.injEq] at h
        exact le_of_eq h

lemma tecnica_score_nonneg (t : Option String) (c : CharsS) : 0 ≤ tecnica_score t c := by
  cases t with
  | none => simp [tecnica_score]
  | some s =>
      simp only [tecnica_score]
      split_ifs <;> norm_num [w_compatibilidad]

lemma stock_score_nonneg (c : CharsS) : 0 ≤ stock_score c := by
  simp only [stock_score]
  split_ifs <;> norm_num [w_stock]

lemma plazo_score_nonneg (c : CharsS) : 0 ≤ plazo_score c := by
  have hw : (0:ℚ) ≤ w_plazo := by norm_num [w_plazo]
  cases h : c.plazo_entrega_dias with
  | none =>
      simp only [plazo_score, h]
      exact mul_nonneg hw (le_max_left 0 _)
  | some s =>
      simp only [plazo_score, h]
      split
      · exact mul_nonneg hw (le_max_left 0 _)
      · cases hp : pyInt s with
        | some n =>
            simp only [hp]
            exact mul_nonneg hw (le_max_left 0 _)
        | none => simp only [hp]; exact le_rfl

lemma sost_score_nonneg (c : CharsS) : 0 ≤ sost_score c := by
  simp only [sost_score]
  split_ifs <;> norm_num [w_sostenibilidad]

/-- C10: every score the engine actually returns is non-negative —
each of the six factors contributes a non-negative amount. -/
theorem C10_score_nonneg (product : ProductS) (parsed : ParsedRequest) (s : ℚ)
    (h : calculate_product_score product parsed = Except.ok s) : 0 ≤ s := by
  obtain ⟨bp, c⟩ := product
  rw [calculate_product_score_eq] at h
  cases hperf : perfil_score parsed.perfil (pyLower (c.perfil_calidad.getD "")) with
  | error e => rw [hperf] at h; exact absurd h (by simp)
  | ok ps =>
      rw [hperf] at h
      simp only [Except.ok.injEq] at h
      have h0 := perfil_score_nonneg _ _ _ hperf
      have h1 := price_score_nonneg bp
      have h2 := tecnica_score_nonneg parsed.tecnica c
      have h3 := stock_score_nonneg c
      have h4 := plazo_score_nonneg c
      have h5 := sost_score_nonneg c
      linarith

/-- C10 witness: the score of a 1-euro empty product is 147/500 ≥ 0. -/
theorem C10_witness : (0 : ℚ) ≤ 147/500 :=
  C10_score_nonneg ⟨1, {}⟩ reqGeneral (147/500) score_eval_one

/-! ## C8, C9: smart-quote embroidery marking cost -/

/-- A parsed request asking for 50 embroidered caps, chest position,
7x7cm, filled. -/
def smartReq : ParsedRequest :=
  parse_client_request "Necesito 50 gorras con bordado en el pecho, área 7x7cm, lleno" 50

def bordadoTech : MarkingTech := ⟨"Bordado", 2⟩

def serigrafiaTech : MarkingTech := ⟨"Serigrafía Textil", 28/100⟩

/-- C8: with technique bordado, a detected nonzero area and at least
one stored technique matching `bordado`, the marking cost per unit is
`baseRate * area * coverageMultiplier * areaBandMultiplier`, with the
coverage multipliers 1.2 / 0.8 / 1 for lleno / hueco / otherwise and
the area bands 1.3 (≤15), 1.1 (15..35], 0.9 (≥50), else 1. -/
theorem C8_embroidery_cost (techniques : List MarkingTech) (requested : List String)
    (parsed : ParsedRequest) (a : ℚ) (t : MarkingTech) (rest : List MarkingTech)
    (htec : parsed.tecnica = some "bordado") (harea : parsed.area_cm2 = some a)
    (ha : a ≠ 0) (hmatch : techniques.filter matchesBordado = t :: rest) :
    smart_marking_cost techniques requested parsed =
      Except.ok (t.cost_per_unit * a * cobertura_multiplier parsed.cobertura *
        area_multiplier a) ∧
    cobertura_multiplier (some "lleno") = 12/10 ∧
    cobertura_multiplier (some "hueco") = 8/10 ∧
    cobertura_multiplier none = 1 ∧
    (a ≤ 15 → area_multiplier a = 13/10) ∧
    (15 < a → a ≤ 35 → area_multiplier a = 11/10) ∧
    (50 ≤ a → area_multiplier a = 9/10) ∧
    (35 < a → a < 50 → area_multiplier a = 1) := by
  refine ⟨?_, rfl, rfl, rfl, ?_, ?_, ?_, ?_⟩
  · simp only [smart_marking_cost, harea, Option.getD_some]
    rw [if_pos ⟨htec, ha⟩, hmatch]
  · intro h
    rw [area_multiplier, if_pos h]
  · intro h1 h2
    rw [area_multiplier, if_neg (by linarith), if_pos h2]
  · intro h
    rw [area_multiplier, if_neg (by linarith), if_neg (by linarith), if_pos h]
  · intro h1 h2
    rw [area_multiplier, if_neg (by linarith), if_neg (by linarith), if_neg (by linarith)]

/-- C8 witness: one stored `Bordado` technique at 2 €/unit and the
parsed 7x7cm filled request. -/
theorem C8_witness :
    smart_marking_cost [bordadoTech] [] smartReq =
      Except.ok (bordadoTech.cost_per_unit * 49 * cobertura_multiplier smartReq.cobertura *
        area_multiplier 49) ∧
    cobertura_multiplier (some "lleno") = 12/10 ∧
    cobertura_multiplier (some "hueco") = 8/10 ∧
    cobertura_multiplier none = 1 ∧
    ((49:ℚ) ≤ 15 → area_multiplier 49 = 13/10) ∧
    ((15:ℚ) < 49 → (49:ℚ) ≤ 35 → area_multiplier 49 = 11/10) ∧
    ((50:ℚ) ≤ 49 → area_multiplier 49 = 9/10) ∧
    ((35:ℚ) < 49 → (49:ℚ) < 50 → area_multiplier 49 = 1) :=
  C8_embroidery_cost [bordadoTech] [] smartReq 49 bordadoTech []
    (by decide) (by decide) (by norm_num) rfl

/-- C9: with technique bordado and area detected but no stored
technique matching `bordado`, the endpoint does not complete with a
zero marking cost: the logging f-string after the branch reads
`bordado_base_price`, which was never bound, and the request dies with
a NameError. -/
theorem C9_missing_bordado_raises :
    smart_marking_cost [serigrafiaTech] [] smartReq =
      Except.error "NameError: name bordado_base_price is not defined" := rfl

end Presupuestos
